import Mathlib

/-!
Shallow embedding of the weather-mood core of the Pursuit habit tracker:
`WeatherService.calculate_weather_mood_score`, `WeatherService.get_weather_mood_prediction`
and `WeatherService._matches_pattern` from `weather_service.py`, and
`HabitDatabase.update_weather_pattern` and `HabitDatabase.save_daily_log` from
`database.py`.  Python floats are modelled as rationals (ℚ); Python dict lookups
that may be absent are modelled with `Option`, and dict indexing that raises
`KeyError` is modelled with `Except`.  `round(x, 1)` is modelled as rounding
`10*x` to the nearest integer (the claims never hit a half-way tie, so the
float-level tie-breaking of Python's `round` is immaterial).
-/

/-- The `weather_data['main']` sub-dictionary of the OpenWeatherMap payload:
`temp`, `humidity` (indexed, may be absent, raising `KeyError`) and
`pressure` (read with `.get`, may be absent). -/
structure MainData where
  temp : Option ℚ
  humidity : Option ℚ
  pressure : Option ℚ

/-- The OpenWeatherMap payload as read by `calculate_weather_mood_score`:
`main`, `weather[0]['main']` (the condition label), `clouds.all` and
`wind.speed` (both read with `.get` and default `0`). -/
structure WeatherData where
  main : MainData
  condition : String
  cloudsAll : Option ℚ
  windSpeed : Option ℚ

/-- Python `round(x, 1)` on a rational: round `10*x` to the nearest integer,
then divide by `10`. -/
def round1 (x : ℚ) : ℚ := (round (10 * x) : ℤ) / 10

/-- The temperature block of `calculate_weather_mood_score` (lines 41-54):
delta and appended factor strings. -/
def temperatureImpact (temp : ℚ) : ℚ × List String :=
  if 18 ≤ temp ∧ temp ≤ 25 then
    (3/2, ["Comfortable temperature (" ++ toString temp ++ "°C)"])
  else if (15 ≤ temp ∧ temp < 18) ∨ (25 < temp ∧ temp ≤ 28) then
    (1/2, ["Pleasant temperature (" ++ toString temp ++ "°C)"])
  else if temp < 5 ∨ 35 < temp then
    (-2, ["Extreme temperature (" ++ toString temp ++ "°C)"])
  else if temp < 15 ∨ 28 < temp then
    (-1, ["Uncomfortable temperature (" ++ toString temp ++ "°C)"])
  else
    (0, [])

/-- The humidity block of `calculate_weather_mood_score` (lines 56-66). -/
def humidityImpact (humidity : ℚ) : ℚ × List String :=
  if 40 ≤ humidity ∧ humidity ≤ 60 then
    (1/2, ["Comfortable humidity (" ++ toString humidity ++ "%)"])
  else if 80 < humidity then
    (-3/2, ["High humidity (" ++ toString humidity ++ "%)"])
  else if humidity < 30 then
    (-1/2, ["Low humidity (" ++ toString humidity ++ "%)"])
  else
    (0, [])

/-- The weather-condition block of `calculate_weather_mood_score`
(lines 68-92); `condition` arrives already lower-cased, `cloudCover` is
`weather_data.get('clouds', \x7b\x7d).get('all', 0)`. -/
def conditionImpact (condition : String) (cloudCover : ℚ) : ℚ × List String :=
  if condition = "clear" ∨ condition = "sunny" then
    (2, ["Clear/sunny weather"])
  else if condition = "clouds" then
    (if cloudCover < 30 then (1, ["Partly cloudy"])
     else if 80 < cloudCover then (-1, ["Overcast"])
     else (0, []))
  else if condition = "rain" ∨ condition = "drizzle" then
    (-3/2, ["Rainy weather"])
  else if condition = "thunderstorm" then
    (-2, ["Thunderstorm"])
  else if condition = "snow" then
    (-1, ["Snowy weather"])
  else if condition = "mist" ∨ condition = "fog" then
    (-1/2, ["Misty/foggy"])
  else
    (0, [])

/-- The wind block of `calculate_weather_mood_score` (lines 94-101). -/
def windImpact (wind_speed : ℚ) : ℚ × List String :=
  if 10 < wind_speed then
    (-1, ["Strong winds (" ++ toString wind_speed ++ " m/s)"])
  else if 2 ≤ wind_speed ∧ wind_speed ≤ 5 then
    (3/10, ["Gentle breeze"])
  else
    (0, [])

/-- The pressure block of `calculate_weather_mood_score` (lines 103-111).
Python tests `if pressure:` which is falsy both for an absent key and for a
stored value of `0`. -/
def pressureImpact (pressure : Option ℚ) : ℚ × List String :=
  match pressure with
  | none => (0, [])
  | some p =>
    if p = 0 then (0, [])
    else if p < 1000 then
      (-4/5, ["Low air pressure (" ++ toString p ++ " hPa)"])
    else if 1020 < p then
      (1/2, ["High air pressure (" ++ toString p ++ " hPa)"])
    else
      (0, [])

/-- `WeatherService.calculate_weather_mood_score` (weather_service.py
lines 33-116).  `none` models an absent or empty `weather_data` (Python's
`if not weather_data`), which short-circuits to `(5.0, [])`.  A present
payload with a missing `main.temp` or `main.humidity` raises `KeyError`
at the indexing on lines 42 and 57. -/
def calculate_weather_mood_score (weather_data : Option WeatherData) :
    Except String (ℚ × List String) :=
  match weather_data with
  | none => Except.ok (5, [])
  | some w =>
    match w.main.temp with
    | none => Except.error "KeyError: temp"
    | some temp =>
      match w.main.humidity with
      | none => Except.error "KeyError: humidity"
      | some humidity =>
        let tI := temperatureImpact temp
        let hI := humidityImpact humidity
        let cI := conditionImpact w.condition.toLower (w.cloudsAll.getD 0)
        let wI := windImpact (w.windSpeed.getD 0)
        let pI := pressureImpact w.main.pressure
        let score := 5 + tI.1 + hI.1 + cI.1 + wI.1 + pI.1
        Except.ok (round1 (max 0 (min 10 score)), tI.2 ++ hI.2 ++ cI.2 ++ wI.2 ++ pI.2)

/-- One row of the `weather_mood_patterns` dict as consumed by
`get_weather_mood_prediction`: condition label and running average impact. -/
structure WeatherPattern where
  weather_condition : String
  avg_mood_impact : ℚ

/-- The result dict of `get_weather_mood_prediction`. -/
structure Prediction where
  mood_score : ℚ
  impact_factors : List String
  recommendation : String

/-- `WeatherService._get_weather_recommendation` (lines 149-158). -/
def get_weather_recommendation (score : ℚ) (factors : List String) : String :=
  if 7 ≤ score then
    "Perfect weather for outdoor activities! Consider exercising outside."
  else if 11/2 ≤ score then
    "Good weather conditions. Great day for a walk or outdoor time."
  else if 4 ≤ score then
    "Weather might affect your mood slightly. Consider indoor activities."
  else
    "Weather conditions may negatively impact mood. Focus on indoor comfort and self-care."

/-- `WeatherService._matches_pattern` (lines 144-147): compares only the
condition label, case-insensitively; `temp` and `humidity` are accepted but
ignored, exactly as in the source. -/
def matches_pattern (temp humidity : ℚ) (condition : String) (p : WeatherPattern) : Bool :=
  p.weather_condition.toLower == condition.toLower

/-- The `for pattern in user_patterns: ... break` loop of
`get_weather_mood_prediction` (lines 131-136): the first matching pattern
adjusts the score by `(avg_mood_impact - 5.0) * 0.3` and appends one factor,
then the loop stops. -/
def applyPatterns (temp humidity : ℚ) (condition : String) (score : ℚ)
    (factors : List String) : List WeatherPattern → ℚ × List String
  | [] => (score, factors)
  | p :: rest =>
    if matches_pattern temp humidity condition p then
      (score + (p.avg_mood_impact - 5) * (3/10),
       factors ++ ["Personal pattern: " ++ p.weather_condition])
    else
      applyPatterns temp humidity condition score factors rest

/-- `WeatherService.get_weather_mood_prediction` (lines 118-142).
`user_patterns = []` models both Python's `None` default and an empty list
(both falsy, so the adjustment block is skipped).  When the pattern block
runs, `weather_data['main']` is indexed again: with `weather_data` absent
this raises (`None` is not subscriptable). -/
def get_weather_mood_prediction (weather_data : Option WeatherData)
    (user_patterns : List WeatherPattern) : Except String Prediction :=
  match calculate_weather_mood_score weather_data with
  | Except.error e => Except.error e
  | Except.ok (base_score, factors) =>
    if user_patterns.isEmpty then
      Except.ok ⟨round1 base_score, factors, get_weather_recommendation base_score factors⟩
    else
      match weather_data with
      | none => Except.error "TypeError: NoneType is not subscriptable"
      | some w =>
        match w.main.temp with
        | none => Except.error "KeyError: temp"
        | some temp =>
          match w.main.humidity with
          | none => Except.error "KeyError: humidity"
          | some humidity =>
            let r := applyPatterns temp humidity w.condition base_score factors user_patterns
            Except.ok ⟨round1 r.1, r.2, get_weather_recommendation r.1 r.2⟩

/-- The flattened `weather_info` dict passed to
`HabitDatabase.update_weather_pattern`; only the three keys it reads. -/
structure WeatherInfo where
  temperature : Option ℚ
  humidity : Option ℚ
  condition : Option String

/-- One row of the `weather_mood_patterns` table. -/
structure PatternRow where
  user_id : ℕ
  temperature_range : String
  humidity_range : String
  weather_condition : String
  avg_mood_impact : ℚ
  sample_count : ℕ

/-- The lookup key of a pattern row: the SQL
`WHERE user_id = ? AND temperature_range = ? AND humidity_range = ? AND weather_condition = ?`. -/
def patternKey (r : PatternRow) : ℕ × String × String × String :=
  (r.user_id, r.temperature_range, r.humidity_range, r.weather_condition)

/-- `temp_range = f"{int(temp//5)*5}-{int(temp//5)*5+5}"` (database.py
line 315): Python float floor-division. -/
def temp_range (temp : ℚ) : String :=
  toString (⌊temp / 5⌋ * 5) ++ "-" ++ toString (⌊temp / 5⌋ * 5 + 5)

/-- `humidity_range = f"{int(humidity//10)*10}-{int(humidity//10)*10+10}"`
(database.py line 316). -/
def humidity_range (humidity : ℚ) : String :=
  toString (⌊humidity / 10⌋ * 10) ++ "-" ++ toString (⌊humidity / 10⌋ * 10 + 10)

/-- The SELECT-then-UPDATE-or-INSERT of `update_weather_pattern`
(lines 318-344) on a list model of the table: the first row matching the
key gets the running-mean update in place; if none matches, a fresh row is
inserted with `avg_mood_impact = mood_impact` and the schema default
`sample_count = 1`. -/
def upsertPattern (key : ℕ × String × String × String) (mood_impact : ℚ) :
    List PatternRow → List PatternRow
  | [] => [⟨key.1, key.2.1, key.2.2.1, key.2.2.2, mood_impact, 1⟩]
  | r :: rest =>
    if patternKey r = key then
      { r with
          avg_mood_impact :=
            (r.avg_mood_impact * (r.sample_count : ℚ) + mood_impact) / ((r.sample_count : ℚ) + 1),
          sample_count := r.sample_count + 1 } :: rest
    else
      r :: upsertPattern key mood_impact rest

/-- `HabitDatabase.update_weather_pattern` (database.py lines 304-353).
The three dict reads use `.get` with defaults `0`, `0` and `'unknown'`. -/
def update_weather_pattern (db : List PatternRow) (user_id : ℕ)
    (weather_data : WeatherInfo) (mood_impact : ℚ) : List PatternRow :=
  let temp := weather_data.temperature.getD 0
  let humidity := weather_data.humidity.getD 0
  let condition := weather_data.condition.getD "unknown"
  upsertPattern (user_id, temp_range temp, humidity_range humidity, condition) mood_impact db

/-- Look up the (avg_mood_impact, sample_count) of the first row matching a
key, as the SELECT of lines 319-325 does. -/
def findPattern (db : List PatternRow) (key : ℕ × String × String × String) :
    Option (ℚ × ℕ) :=
  (db.find? (fun r => decide (patternKey r = key))).map
    (fun r => (r.avg_mood_impact, r.sample_count))

/-- A daily log entry dict as passed to `save_daily_log`. -/
structure LogEntry where
  LogDate : String
  MoodRating : ℤ
  HadExercise : Bool
  GotEnoughSleep : Bool
  HadSocialInteraction : Bool
  AteHealthy : Bool
  Notes : String

/-- One row of the `daily_logs` table (the columns `save_daily_log` writes). -/
structure LogRow where
  user_id : ℕ
  log_date : String
  mood_rating : ℤ
  had_exercise : Bool
  got_enough_sleep : Bool
  had_social_interaction : Bool
  ate_healthy : Bool
  notes : String

/-- The `UNIQUE(user_id, log_date)` key of `daily_logs`. -/
def logKey (r : LogRow) : ℕ × String := (r.user_id, r.log_date)

/-- The row `save_daily_log` inserts for a given user and entry. -/
def logRowOf (user_id : ℕ) (e : LogEntry) : LogRow :=
  ⟨user_id, e.LogDate, e.MoodRating, e.HadExercise, e.GotEnoughSleep,
   e.HadSocialInteraction, e.AteHealthy, e.Notes⟩

/-- `HabitDatabase.save_daily_log` (database.py lines 154-183) on a list
model of `daily_logs`: `INSERT OR REPLACE` under `UNIQUE(user_id, log_date)`
deletes any row with the same key and inserts the new row. -/
def save_daily_log (db : List LogRow) (log_entry : LogEntry) (user_id : ℕ) :
    List LogRow :=
  db.filter (fun r => decide (logKey r ≠ (user_id, log_entry.LogDate))) ++
    [logRowOf user_id log_entry]

/-- The `UNIQUE(user_id, log_date)` table invariant: all rows have pairwise
distinct keys. -/
def uniqueByKey (db : List LogRow) : Prop :=
  db.Pairwise (fun a b => logKey a ≠ logKey b)

/-! ### Helper lemmas about rounding and clamping -/

lemma round1_int_div (k : ℤ) : round1 ((k : ℚ) / 10) = (k : ℚ) / 10 := by
  unfold round1
  rw [show (10 : ℚ) * ((k : ℚ) / 10) = (k : ℚ) by ring, round_intCast]

lemma round1_mono {x y : ℚ} (h : x ≤ y) : round1 x ≤ round1 y := by
  unfold round1
  have hr : round (10 * x) ≤ round (10 * y) := by
    rw [round_eq, round_eq]
    exact Int.floor_mono (by linarith)
  have hq : ((round (10 * x) : ℤ) : ℚ) ≤ ((round (10 * y) : ℤ) : ℚ) := by exact_mod_cast hr
  linarith

lemma round1_zero : round1 0 = 0 := by
  unfold round1
  norm_num

lemma round1_ten : round1 10 = 10 := by
  have h := round1_int_div 100
  norm_num at h
  exact h

lemma clamp_mem (x : ℚ) : 0 ≤ max 0 (min 10 x) ∧ max 0 (min 10 x) ≤ 10 :=
  ⟨le_max_left _ _, max_le (by norm_num) (min_le_left _ _)⟩

/-- The clamp-then-round tail of the scoring function lands in [0, 10] and is
an integer number of tenths, whatever the summed deltas were. -/
lemma round1_clamp_mem (z : ℚ) :
    0 ≤ round1 (max 0 (min 10 z)) ∧ round1 (max 0 (min 10 z)) ≤ 10 ∧
      ∃ k : ℤ, round1 (max 0 (min 10 z)) = (k : ℚ) / 10 := by
  refine ⟨?_, ?_, round (10 * max 0 (min 10 z)), rfl⟩
  · have h := round1_mono (clamp_mem z).1
    rwa [round1_zero] at h
  · have h := round1_mono (clamp_mem z).2
    rwa [round1_ten] at h

/-- Any successful result of `calculate_weather_mood_score` is clamped to
[0, 10] and is an integer number of tenths. -/
lemma calculate_ok_bounds {wd : Option WeatherData} {s : ℚ} {fs : List String}
    (h : calculate_weather_mood_score wd = Except.ok (s, fs)) :
    0 ≤ s ∧ s ≤ 10 ∧ ∃ k : ℤ, s = (k : ℚ) / 10 := by
  cases wd with
  | none =>
    simp only [calculate_weather_mood_score, Except.ok.injEq, Prod.mk.injEq] at h
    refine ⟨by rw [← h.1]; norm_num, by rw [← h.1]; norm_num, 50, by rw [← h.1]; norm_num⟩
  | some w =>
    cases ht : w.main.temp with
    | none => simp [calculate_weather_mood_score, ht] at h
    | some t =>
      cases hh : w.main.humidity with
      | none => simp [calculate_weather_mood_score, ht, hh] at h
      | some hu =>
        simp only [calculate_weather_mood_score, ht, hh, Except.ok.injEq, Prod.mk.injEq] at h
        obtain ⟨hs, -⟩ := h
        rw [← hs]
        exact round1_clamp_mem _

/-! ### Temperature band lemmas (claim C1) -/

lemma tempImpact_comfortable {t : ℚ} (h : 18 ≤ t ∧ t ≤ 25) :
    temperatureImpact t = (3/2, ["Comfortable temperature (" ++ toString t ++ "°C)"]) := by
  unfold temperatureImpact
  rw [if_pos h]

lemma tempImpact_pleasant {t : ℚ} (h : (15 ≤ t ∧ t < 18) ∨ (25 < t ∧ t ≤ 28)) :
    temperatureImpact t = (1/2, ["Pleasant temperature (" ++ toString t ++ "°C)"]) := by
  unfold temperatureImpact
  rw [if_neg (by rintro ⟨h1, h2⟩; rcases h with ⟨a, b⟩ | ⟨a, b⟩ <;> linarith), if_pos h]

lemma tempImpact_extreme {t : ℚ} (h : t < 5 ∨ 35 < t) :
    temperatureImpact t = (-2, ["Extreme temperature (" ++ toString t ++ "°C)"]) := by
  unfold temperatureImpact
  rw [if_neg (by rintro ⟨h1, h2⟩; rcases h with h | h <;> linarith),
    if_neg (by rintro (⟨a, b⟩ | ⟨a, b⟩) <;> rcases h with h | h <;> linarith), if_pos h]

lemma tempImpact_uncomfortable {t : ℚ} (h : (5 ≤ t ∧ t < 15) ∨ (28 < t ∧ t ≤ 35)) :
    temperatureImpact t = (-1, ["Uncomfortable temperature (" ++ toString t ++ "°C)"]) := by
  unfold temperatureImpact
  rw [if_neg (by rintro ⟨h1, h2⟩; rcases h with ⟨a, b⟩ | ⟨a, b⟩ <;> linarith),
    if_neg (by rintro (⟨h1, h2⟩ | ⟨h1, h2⟩) <;> rcases h with ⟨a, b⟩ | ⟨a, b⟩ <;> linarith),
    if_neg (by rintro (h1 | h1) <;> rcases h with ⟨a, b⟩ | ⟨a, b⟩ <;> linarith),
    if_pos (by rcases h with ⟨a, b⟩ | ⟨a, b⟩; exact Or.inl b; exact Or.inr a)]

/-- Every rational temperature lies in exactly one of the seven elementary
regions cut out by the thresholds 5, 15, 18, 25, 28, 35. -/
lemma temp_cases (t : ℚ) :
    t < 5 ∨ (5 ≤ t ∧ t < 15) ∨ (15 ≤ t ∧ t < 18) ∨ (18 ≤ t ∧ t ≤ 25) ∨
      (25 < t ∧ t ≤ 28) ∨ (28 < t ∧ t ≤ 35) ∨ 35 < t := by
  rcases lt_or_le t 5 with h5 | h5
  · exact Or.inl h5
  rcases lt_or_le t 15 with h15 | h15
  · exact Or.inr (Or.inl ⟨h5, h15⟩)
  rcases lt_or_le t 18 with h18 | h18
  · exact Or.inr (Or.inr (Or.inl ⟨h15, h18⟩))
  rcases le_or_lt t 25 with h25 | h25
  · exact Or.inr (Or.inr (Or.inr (Or.inl ⟨h18, h25⟩)))
  rcases le_or_lt t 28 with h28 | h28
  · exact Or.inr (Or.inr (Or.inr (Or.inr (Or.inl ⟨h25, h28⟩))))
  rcases le_or_lt t 35 with h35 | h35
  · exact Or.inr (Or.inr (Or.inr (Or.inr (Or.inr (Or.inl ⟨h28, h35⟩)))))
  · exact Or.inr (Or.inr (Or.inr (Or.inr (Or.inr (Or.inr h35)))))

/-- C1: for every temperature, exactly one of the five temperature rules of
`calculate_weather_mood_score` fires (exactly one factor string is appended),
with the bands 18–25 → +1.5, [15,18)∪(25,28] → +0.5, (−∞,5)∪(35,∞) → −2.0 and
the remaining [5,15)∪(28,35] → −1.0; the four bands are mutually exclusive and
exhaustive over all rational temperatures. -/
theorem c1_temperature_bands (t : ℚ) :
    (temperatureImpact t).2.length = 1 ∧
    (18 ≤ t ∧ t ≤ 25 → (temperatureImpact t).1 = 3/2) ∧
    ((15 ≤ t ∧ t < 18) ∨ (25 < t ∧ t ≤ 28) → (temperatureImpact t).1 = 1/2) ∧
    (t < 5 ∨ 35 < t → (temperatureImpact t).1 = -2) ∧
    ((5 ≤ t ∧ t < 15) ∨ (28 < t ∧ t ≤ 35) → (temperatureImpact t).1 = -1) ∧
    ((if 18 ≤ t ∧ t ≤ 25 then 1 else 0) +
      (if (15 ≤ t ∧ t < 18) ∨ (25 < t ∧ t ≤ 28) then 1 else 0) +
      (if t < 5 ∨ 35 < t then 1 else 0) +
      (if (5 ≤ t ∧ t < 15) ∨ (28 < t ∧ t ≤ 35) then 1 else 0) = (1 : ℕ)) := by
  refine ⟨?_, fun h => by rw [tempImpact_comfortable h],
    fun h => by rw [tempImpact_pleasant h],
    fun h => by rw [tempImpact_extreme h],
    fun h => by rw [tempImpact_uncomfortable h], ?_⟩
  · rcases temp_cases t with h | h | h | h | h | h | h
    · rw [tempImpact_extreme (Or.inl h)]; rfl
    · rw [tempImpact_uncomfortable (Or.inl h)]; rfl
    · rw [tempImpact_pleasant (Or.inl h)]; rfl
    · rw [tempImpact_comfortable h]; rfl
    · rw [tempImpact_pleasant (Or.inr h)]; rfl
    · rw [tempImpact_uncomfortable (Or.inr h)]; rfl
    · rw [tempImpact_extreme (Or.inr h)]; rfl
  · rcases temp_cases t with h | h | h | h | h | h | h
    · rw [if_neg (by rintro ⟨a, b⟩; linarith),
        if_neg (by rintro (⟨a, b⟩ | ⟨a, b⟩) <;> linarith),
        if_pos (Or.inl h),
        if_neg (by rintro (⟨a, b⟩ | ⟨a, b⟩) <;> linarith)]
    · rw [if_neg (by rintro ⟨a, b⟩; linarith),
        if_neg (by rintro (⟨a, b⟩ | ⟨a, b⟩) <;> linarith),
        if_neg (by rintro (a | a) <;> linarith),
        if_pos (Or.inl h)]
    · rw [if_neg (by rintro ⟨a, b⟩; linarith),
        if_pos (Or.inl h),
        if_neg (by rintro (a | a) <;> linarith),
        if_neg (by rintro (⟨a, b⟩ | ⟨a, b⟩) <;> linarith)]
    · rw [if_pos h,
        if_neg (by rintro (⟨a, b⟩ | ⟨a, b⟩) <;> linarith),
        if_neg (by rintro (a | a) <;> linarith),
        if_neg (by rintro (⟨a, b⟩ | ⟨a, b⟩) <;> linarith)]
    · rw [if_neg (by rintro ⟨a, b⟩; linarith),
        if_pos (Or.inr h),
        if_neg (by rintro (a | a) <;> linarith),
        if_neg (by rintro (⟨a, b⟩ | ⟨a, b⟩) <;> linarith)]
    · rw [if_neg (by rintro ⟨a, b⟩; linarith),
        if_neg (by rintro (⟨a, b⟩ | ⟨a, b⟩) <;> linarith),
        if_neg (by rintro (a | a) <;> linarith),
        if_pos (Or.inr h)]
    · rw [if_neg (by rintro ⟨a, b⟩; linarith),
        if_neg (by rintro (⟨a, b⟩ | ⟨a, b⟩) <;> linarith),
        if_pos (Or.inr h),
        if_neg (by rintro (⟨a, b⟩ | ⟨a, b⟩) <;> linarith)]

/-- Witness for C1 at the spec's own sample points: t = 18 is "comfortable"
(+1.5), t = 14.9 is "uncomfortable" (−1.0), t = 3 is "extreme" (−2.0). -/
theorem c1_temperature_bands_witness :
    (temperatureImpact 18).1 = 3/2 ∧ (temperatureImpact (149/10)).1 = -1 ∧
      (temperatureImpact 3).1 = -2 :=
  ⟨(c1_temperature_bands 18).2.1 (by norm_num),
   (c1_temperature_bands (149/10)).2.2.2.2.1 (Or.inl (by norm_num)),
   (c1_temperature_bands 3).2.2.2.1 (Or.inl (by norm_num))⟩

/-! ### Bucketing (claim C5) -/

/-- C5: `update_weather_pattern` buckets temperature into the half-open
5-degree band [⌊t/5⌋·5, ⌊t/5⌋·5+5) and humidity into the analogous 10-wide
band, rendering the bands as "lo-hi" strings; 22.0 and 24.9 land in "20-25"
while 25.0 lands in "25-30". -/
theorem c5_bucketing (t h : ℚ) :
    ((⌊t / 5⌋ * 5 : ℤ) : ℚ) ≤ t ∧ t < ((⌊t / 5⌋ * 5 : ℤ) : ℚ) + 5 ∧
    temp_range t = toString (⌊t / 5⌋ * 5) ++ "-" ++ toString (⌊t / 5⌋ * 5 + 5) ∧
    ((⌊h / 10⌋ * 10 : ℤ) : ℚ) ≤ h ∧ h < ((⌊h / 10⌋ * 10 : ℤ) : ℚ) + 10 ∧
    humidity_range h = toString (⌊h / 10⌋ * 10) ++ "-" ++ toString (⌊h / 10⌋ * 10 + 10) ∧
    temp_range 22 = "20-25" ∧ temp_range (249/10) = "20-25" ∧ temp_range 25 = "25-30" := by
  have ht1 : ((⌊t / 5⌋ : ℤ) : ℚ) ≤ t / 5 := Int.floor_le (t / 5)
  have ht2 : t / 5 < ((⌊t / 5⌋ : ℤ) : ℚ) + 1 := Int.lt_floor_add_one (t / 5)
  have hh1 : ((⌊h / 10⌋ : ℤ) : ℚ) ≤ h / 10 := Int.floor_le (h / 10)
  have hh2 : h / 10 < ((⌊h / 10⌋ : ℤ) : ℚ) + 1 := Int.lt_floor_add_one (h / 10)
  refine ⟨?_, ?_, rfl, ?_, ?_, rfl, by with_unfolding_all rfl, by with_unfolding_all rfl,
    by with_unfolding_all rfl⟩ <;> push_cast <;> linarith

/-! ### The end-to-end observation (claim C7) -/

/-- The spec's end-to-end observation: temperature 20 °C, humidity 50 %,
condition "Clear", wind 3 m/s, pressure 1015 hPa, no clouds entry. -/
def mainObs : WeatherData := ⟨⟨some 20, some 50, some 1015⟩, "Clear", none, some 3⟩

/-- The four factor strings the scoring engine produces for `mainObs`, in
evaluation order: temperature, humidity, condition, wind. -/
def mainFactors : List String :=
  ["Comfortable temperature (20°C)", "Comfortable humidity (50%)",
   "Clear/sunny weather", "Gentle breeze"]

/-- C7: the observation \x7btemp=20, humidity=50, condition="Clear", wind=3,
pressure=1015\x7d scores exactly 9.3 = 5.0+1.5+0.5+2.0+0.3 (pressure neutral),
with a factors list of length 4 in the fixed order temperature, humidity,
condition, wind. -/
theorem c7_end_to_end :
    calculate_weather_mood_score (some mainObs) = Except.ok (93/10, mainFactors) ∧
      mainFactors.length = 4 :=
  ⟨by with_unfolding_all rfl, rfl⟩

/-! ### Absent observation (claim C10) -/

/-- C10: with the observation argument absent (Python `None` or an empty
payload, both falsy), `calculate_weather_mood_score` returns the neutral
score 5.0 with an empty factors list instead of raising. -/
theorem c10_empty_observation :
    calculate_weather_mood_score none = Except.ok (5, ([] : List String)) :=
  rfl

/-! ### Clamping and rounding of the final score (claim C3) -/

/-- C3: every score returned by `calculate_weather_mood_score` lies in
[0, 10] and is an integer number of tenths (one decimal place), whatever the
summed rule deltas were: the clamp `max(0, min(10, score))` is applied before
`round(score, 1)`. -/
theorem c3_score_bounds (wd : Option WeatherData) (s : ℚ) (fs : List String)
    (h : calculate_weather_mood_score wd = Except.ok (s, fs)) :
    0 ≤ s ∧ s ≤ 10 ∧ ∃ k : ℤ, s = (k : ℚ) / 10 :=
  calculate_ok_bounds h

/-- Witness for C3 at the spec's end-to-end observation, whose score is 9.3. -/
theorem c3_score_bounds_witness :
    0 ≤ (93/10 : ℚ) ∧ (93/10 : ℚ) ≤ 10 ∧ ∃ k : ℤ, (93/10 : ℚ) = (k : ℚ) / 10 :=
  c3_score_bounds (some mainObs) (93/10) mainFactors (by with_unfolding_all rfl)

/-! ### Pattern matching in predictions (claims C8, C9) -/

/-- The pattern loop is a first-match search: `applyPatterns` applies the
adjustment of the first pattern accepted by `_matches_pattern` and ignores
everything after it. -/
lemma applyPatterns_find (t h : ℚ) (cond : String) (b : ℚ) (fs : List String)
    (ps : List WeatherPattern) :
    applyPatterns t h cond b fs ps =
      match ps.find? (fun p => p.weather_condition.toLower == cond.toLower) with
      | some p => (b + (p.avg_mood_impact - 5) * (3/10),
                   fs ++ ["Personal pattern: " ++ p.weather_condition])
      | none => (b, fs) := by
  induction ps with
  | nil => rfl
  | cons p rest ih =>
    cases hp : p.weather_condition.toLower == cond.toLower with
    | true => simp [applyPatterns, matches_pattern, hp, List.find?_cons]
    | false => simp [applyPatterns, matches_pattern, hp, List.find?_cons, ih]

/-- C8: `get_weather_mood_prediction` adjusts the base score only for the
first pattern in stored order whose condition label matches the observation's
condition, by exactly `(avg_mood_impact − 5.0) × 0.3`, appending one
"Personal pattern" factor and applying no further patterns; with no matching
pattern the base score is returned unchanged. -/
theorem c8_first_match (w : WeatherData) (ps : List WeatherPattern) (b : ℚ)
    (fs : List String)
    (hb : calculate_weather_mood_score (some w) = Except.ok (b, fs))
    (r : Prediction)
    (hr : get_weather_mood_prediction (some w) ps = Except.ok r) :
    match ps.find? (fun p => p.weather_condition.toLower == w.condition.toLower) with
    | some p =>
        r.mood_score = round1 (b + (p.avg_mood_impact - 5) * (3/10)) ∧
        r.impact_factors = fs ++ ["Personal pattern: " ++ p.weather_condition]
    | none => r.mood_score = b ∧ r.impact_factors = fs := by
  obtain ⟨-, -, k, hk⟩ := calculate_ok_bounds hb
  have hbr : round1 b = b := by rw [hk, round1_int_div]
  cases ht : w.main.temp with
  | none => rw [calculate_weather_mood_score] at hb; rw [ht] at hb; exact absurd hb (by simp)
  | some t =>
    cases hh : w.main.humidity with
    | none =>
      rw [calculate_weather_mood_score] at hb; rw [ht, hh] at hb
      exact absurd hb (by simp)
    | some hu =>
      rw [get_weather_mood_prediction, hb] at hr
      cases hps : ps.isEmpty with
      | true =>
        rw [hps] at hr
        simp only [if_true] at hr
        rw [List.isEmpty_iff] at hps
        subst hps
        simp only [List.find?_nil]
        cases hr with
        | refl => exact ⟨hbr, rfl⟩
      | false =>
        rw [hps] at hr
        simp only [Bool.false_eq_true, if_false, ht, hh] at hr
        rw [applyPatterns_find] at hr
        cases hf : ps.find? (fun p => p.weather_condition.toLower == w.condition.toLower) with
        | some p =>
          rw [hf] at hr
          simp only [Except.ok.injEq] at hr
          rw [← hr]
          exact ⟨rfl, rfl⟩
        | none =>
          rw [hf] at hr
          simp only [Except.ok.injEq] at hr
          rw [← hr]
          exact ⟨hbr, rfl⟩

/-- Witness for C8: the end-to-end observation with one matching stored
pattern (condition "clear", average impact 8) is adjusted by
(8 − 5) × 0.3 = 0.9 to 10.2 and gets one appended pattern factor. -/
theorem c8_first_match_witness :
    (⟨51/5, mainFactors ++ ["Personal pattern: clear"],
        "Perfect weather for outdoor activities! Consider exercising outside."⟩ :
        Prediction).mood_score = round1 (93/10 + ((8 : ℚ) - 5) * (3/10)) ∧
    (⟨51/5, mainFactors ++ ["Personal pattern: clear"],
        "Perfect weather for outdoor activities! Consider exercising outside."⟩ :
        Prediction).impact_factors = mainFactors ++ ["Personal pattern: " ++ "clear"] :=
  by
    have h := c8_first_match mainObs [⟨"clear", 8⟩] (93/10) mainFactors
      (by with_unfolding_all rfl)
      ⟨51/5, mainFactors ++ ["Personal pattern: clear"],
        "Perfect weather for outdoor activities! Consider exercising outside."⟩
      (by with_unfolding_all rfl)
    have hf : List.find?
        (fun p : WeatherPattern => p.weather_condition.toLower == mainObs.condition.toLower)
        ([⟨"clear", 8⟩] : List WeatherPattern) = some ⟨"clear", 8⟩ := by
      with_unfolding_all rfl
    rw [hf] at h
    exact h

/-- Counterexample to C9: a stored pattern with condition "Clear" and
running average 10 pushes the end-to-end observation's clamped base score 9.3
to 9.3 + (10 − 5) × 0.3 = 10.8, and `get_weather_mood_prediction` returns
10.8 without re-clamping — outside [0, 10]. -/
theorem c9_counterexample :
    get_weather_mood_prediction (some mainObs) [⟨"Clear", 10⟩] =
      Except.ok ⟨54/5, mainFactors ++ ["Personal pattern: Clear"],
        "Perfect weather for outdoor activities! Consider exercising outside."⟩ ∧
    ¬((54/5 : ℚ) ≤ 10) :=
  ⟨by with_unfolding_all rfl, by norm_num⟩

/-- C9 as amended: the base score is clamped to [0, 10], but the
personal-pattern adjustment is not re-clamped; with every stored pattern
average in [0, 10] the returned mood_score is only guaranteed to lie in
[−1.5, 11.5], and it can exceed 10. -/
theorem c9_adjusted_range (wd : Option WeatherData) (ps : List WeatherPattern)
    (r : Prediction)
    (hr : get_weather_mood_prediction wd ps = Except.ok r)
    (hps : ∀ p ∈ ps, 0 ≤ p.avg_mood_impact ∧ p.avg_mood_impact ≤ 10) :
    -(3/2) ≤ r.mood_score ∧ r.mood_score ≤ 23/2 := by
  have h5 : round1 (5 : ℚ) = 5 := by with_unfolding_all rfl
  have hlo : round1 (-(3/2) : ℚ) = -(3/2) := by with_unfolding_all rfl
  have hhi : round1 (23/2 : ℚ) = 23/2 := by with_unfolding_all rfl
  cases wd with
  | none =>
    rw [get_weather_mood_prediction] at hr
    simp only [calculate_weather_mood_score] at hr
    cases hemp : ps.isEmpty with
    | true =>
      rw [hemp] at hr
      simp only [if_true, Except.ok.injEq] at hr
      rw [← hr]
      exact ⟨by rw [h5]; norm_num, by rw [h5]; norm_num⟩
    | false =>
      rw [hemp] at hr
      exact absurd hr (by simp)
  | some w =>
    cases hc : calculate_weather_mood_score (some w) with
    | error e =>
      rw [get_weather_mood_prediction, hc] at hr
      exact absurd hr (by simp)
    | ok bf =>
      obtain ⟨b, fs⟩ := bf
      obtain ⟨hb0, hb10, k, hk⟩ := calculate_ok_bounds hc
      have hbr : round1 b = b := by rw [hk, round1_int_div]
      rw [get_weather_mood_prediction, hc] at hr
      cases hemp : ps.isEmpty with
      | true =>
        rw [hemp] at hr
        simp only [if_true, Except.ok.injEq] at hr
        rw [← hr]
        exact ⟨by rw [hbr]; linarith, by rw [hbr]; linarith⟩
      | false =>
        rw [hemp] at hr
        simp only [Bool.false_eq_true, if_false] at hr
        cases ht : w.main.temp with
        | none =>
          rw [calculate_weather_mood_score, ht] at hc
          exact absurd hc (by simp)
        | some t =>
          cases hh : w.main.humidity with
          | none =>
            rw [calculate_weather_mood_score, ht, hh] at hc
            exact absurd hc (by simp)
          | some hu =>
            simp only [ht, hh] at hr
            rw [applyPatterns_find] at hr
            cases hf : ps.find?
                (fun p => p.weather_condition.toLower == w.condition.toLower) with
            | none =>
              rw [hf] at hr
              simp only [Except.ok.injEq] at hr
              rw [← hr]
              exact ⟨by rw [hbr]; linarith, by rw [hbr]; linarith⟩
            | some p =>
              obtain ⟨hp0, hp10⟩ := hps p (List.mem_of_find?_eq_some hf)
              rw [hf] at hr
              simp only [Except.ok.injEq] at hr
              rw [← hr]
              have hexp : b + (p.avg_mood_impact - 5) * (3/10) =
                  b + (3/10) * p.avg_mood_impact - 3/2 := by ring
              constructor
              · have hm := round1_mono (x := -(3/2)) (y := b + (p.avg_mood_impact - 5) * (3/10))
                  (by rw [hexp]; linarith)
                rwa [hlo] at hm
              · have hm := round1_mono (x := b + (p.avg_mood_impact - 5) * (3/10)) (y := 23/2)
                  (by rw [hexp]; linarith)
                rwa [hhi] at hm

/-- Witness for C9's amended range at the end-to-end observation with no
stored patterns: the returned 9.3 lies in [−1.5, 11.5]. -/
theorem c9_adjusted_range_witness :
    -(3/2) ≤ (⟨93/10, mainFactors,
        "Perfect weather for outdoor activities! Consider exercising outside."⟩ :
        Prediction).mood_score ∧
      (⟨93/10, mainFactors,
        "Perfect weather for outdoor activities! Consider exercising outside."⟩ :
        Prediction).mood_score ≤ 23/2 :=
  c9_adjusted_range (some mainObs) []
    ⟨93/10, mainFactors,
      "Perfect weather for outdoor activities! Consider exercising outside."⟩
    (by with_unfolding_all rfl) (by simp)

/-! ### Running-mean pattern aggregation (claim C2) -/

/-- The effect of one upsert on the row a key looks up: a missing row is
created with the given impact and count 1; an existing row gets the exact
running-mean update. -/
lemma findPattern_upsert (db : List PatternRow) (key : ℕ × String × String × String)
    (m : ℚ) :
    findPattern (upsertPattern key m db) key =
      match findPattern db key with
      | none => some (m, 1)
      | some (a, n) => some ((a * (n : ℚ) + m) / ((n : ℚ) + 1), n + 1) := by
  induction db with
  | nil =>
    simp [findPattern, upsertPattern, List.find?, patternKey]
  | cons r rest ih =>
    by_cases hk : patternKey r = key
    · simp only [upsertPattern, if_pos hk, findPattern, List.find?_cons]
      have hk2 : patternKey
          { r with
              avg_mood_impact :=
                (r.avg_mood_impact * (r.sample_count : ℚ) + m) / ((r.sample_count : ℚ) + 1),
              sample_count := r.sample_count + 1 } = key := hk
      simp [hk, hk2]
    · simp only [upsertPattern, if_neg hk, findPattern, List.find?_cons]
      simp only [findPattern] at ih
      simp [hk, ih]

/-- C2: `update_weather_pattern` maintains the exact arithmetic running mean
per bucket key (user, temperature bucket, humidity bucket, condition): a
first observation creates the pattern with average = mood_impact and
sample_count = 1, and a subsequent observation updates it to
`(old_avg * old_count + mood_impact) / (old_count + 1)` with the count
incremented. -/
theorem c2_running_mean (db : List PatternRow) (u : ℕ) (wd : WeatherInfo) (m : ℚ)
    (key : ℕ × String × String × String)
    (hkey : key = (u, temp_range (wd.temperature.getD 0),
      humidity_range (wd.humidity.getD 0), wd.condition.getD "unknown")) :
    (findPattern db key = none →
      findPattern (update_weather_pattern db u wd m) key = some (m, 1)) ∧
    ∀ (a : ℚ) (n : ℕ), findPattern db key = some (a, n) →
      findPattern (update_weather_pattern db u wd m) key =
        some ((a * (n : ℚ) + m) / ((n : ℚ) + 1), n + 1) := by
  subst hkey
  constructor
  · intro h
    rw [update_weather_pattern, findPattern_upsert, h]
  · intro a n h
    rw [update_weather_pattern, findPattern_upsert, h]

/-- The concrete weather_info dict of the spec's aggregation test:
temperature 22, humidity 55, condition "Clear". -/
def wInfo : WeatherInfo := ⟨some 22, some 55, some "Clear"⟩

/-- The bucket key `wInfo` routes to for user 1. -/
def k22 : ℕ × String × String × String := (1, "20-25", "50-60", "Clear")

/-- Witness for C2: three sequential updates with mood impacts 4, 6, 8 to the
same bucket yield running averages 4 → 5 → 6 and counts 1 → 2 → 3. -/
theorem c2_running_mean_witness :
    findPattern (update_weather_pattern [] 1 wInfo 4) k22 = some (4, 1) ∧
    findPattern (update_weather_pattern (update_weather_pattern [] 1 wInfo 4) 1 wInfo 6)
      k22 = some (5, 2) ∧
    findPattern (update_weather_pattern (update_weather_pattern
      (update_weather_pattern [] 1 wInfo 4) 1 wInfo 6) 1 wInfo 8) k22 = some (6, 3) := by
  have hkey : k22 = (1, temp_range (wInfo.temperature.getD 0),
      humidity_range (wInfo.humidity.getD 0), wInfo.condition.getD "unknown") := by
    with_unfolding_all rfl
  have h1 := (c2_running_mean [] 1 wInfo 4 k22 hkey).1 (by with_unfolding_all rfl)
  have h2 := (c2_running_mean (update_weather_pattern [] 1 wInfo 4) 1 wInfo 6 k22 hkey).2
    4 1 h1
  norm_num at h2
  have h3 := (c2_running_mean (update_weather_pattern
    (update_weather_pattern [] 1 wInfo 4) 1 wInfo 6) 1 wInfo 8 k22 hkey).2 5 2 h2
  norm_num at h3
  exact ⟨h1, h2, h3⟩

/-! ### Missing required fields (claim C4) -/

/-- Counterexample to C4: with the temperature key missing entirely,
`update_weather_pattern` does not fail — it silently defaults the
temperature to 0 and derives the bucket key "0-5" from that default,
creating a pattern row. -/
theorem c4_counterexample :
    update_weather_pattern [] 1 ⟨none, some 50, some "Clear"⟩ 4 =
      [⟨1, "0-5", "50-60", "Clear", 4, 1⟩] := by
  with_unfolding_all rfl

/-- C4 as amended: the scoring engine does fail fast — a missing temperature
or humidity raises a KeyError before any score is computed — but
`update_weather_pattern` does not: it silently defaults a missing temperature
or humidity to 0 (and a missing condition to "unknown") and derives the
bucket key from the defaulted value, a missing temperature yielding the
temperature bucket "0-5". -/
theorem c4_missing_field :
    (∀ w : WeatherData, w.main.temp = none →
      calculate_weather_mood_score (some w) = Except.error "KeyError: temp") ∧
    (∀ (w : WeatherData) (t : ℚ), w.main.temp = some t → w.main.humidity = none →
      calculate_weather_mood_score (some w) = Except.error "KeyError: humidity") ∧
    (∀ (db : List PatternRow) (u : ℕ) (wd : WeatherInfo) (m : ℚ),
      wd.temperature = none →
      update_weather_pattern db u wd m =
        upsertPattern (u, "0-5", humidity_range (wd.humidity.getD 0),
          wd.condition.getD "unknown") m db) := by
  refine ⟨?_, ?_, ?_⟩
  · intro w h
    rw [calculate_weather_mood_score, h]
  · intro w t ht hh
    rw [calculate_weather_mood_score, ht, hh]
  · intro db u wd m h
    rw [update_weather_pattern, h]
    with_unfolding_all rfl

/-- Witness for C4's amended statement: scoring a payload without a
temperature (or without a humidity) errors, while the pattern aggregator
proceeds with the defaulted bucket key. -/
theorem c4_missing_field_witness :
    calculate_weather_mood_score (some ⟨⟨none, some 50, none⟩, "Clear", none, none⟩) =
      Except.error "KeyError: temp" ∧
    calculate_weather_mood_score (some ⟨⟨some 20, none, none⟩, "Clear", none, none⟩) =
      Except.error "KeyError: humidity" ∧
    update_weather_pattern [] 1 ⟨none, some 50, some "Rain"⟩ 4 =
      upsertPattern (1, "0-5", "50-60", "Rain") 4 [] := by
  refine ⟨c4_missing_field.1 _ rfl, c4_missing_field.2.1 _ 20 rfl rfl, ?_⟩
  have h := c4_missing_field.2.2 [] 1 ⟨none, some 50, some "Rain"⟩ 4 rfl
  rw [h]
  with_unfolding_all rfl

/-! ### Daily entry upsert (claim C6) -/

/-- One `INSERT OR REPLACE` preserves key uniqueness of the `daily_logs`
table. -/
lemma save_preserves_unique (db : List LogRow) (e : LogEntry) (u : ℕ)
    (h : uniqueByKey db) : uniqueByKey (save_daily_log db e u) := by
  unfold uniqueByKey save_daily_log
  rw [List.pairwise_append]
  refine ⟨h.sublist (List.filter_sublist _), by simp, ?_⟩
  intro a ha b hb
  simp only [List.mem_singleton] at hb
  subst hb
  have hmem := List.of_mem_filter ha
  simp only [decide_eq_true_eq] at hmem
  simpa [logRowOf, logKey] using hmem

/-- C6: the `daily_logs` store keeps at most one entry per (user, date) under
every sequence of saves, and saving two entries for the same (user, date)
leaves exactly one stored row for that key, carrying the second entry's
fields. -/
theorem c6_upsert :
    (∀ (saves : List (LogEntry × ℕ)) (db : List LogRow), uniqueByKey db →
      uniqueByKey (saves.foldl (fun d p => save_daily_log d p.1 p.2) db)) ∧
    (∀ (db : List LogRow) (e1 e2 : LogEntry) (u : ℕ), e1.LogDate = e2.LogDate →
      (save_daily_log (save_daily_log db e1 u) e2 u).filter
        (fun r => decide (logKey r = (u, e2.LogDate))) = [logRowOf u e2]) := by
  constructor
  · intro saves
    induction saves with
    | nil => intro db h; exact h
    | cons p rest ih =>
      intro db h
      exact ih _ (save_preserves_unique db p.1 p.2 h)
  · intro db e1 e2 u hdate
    have hrow1 : logKey (logRowOf u e1) = (u, e2.LogDate) := by
      simp [logRowOf, logKey, hdate]
    have hrow2 : logKey (logRowOf u e2) = (u, e2.LogDate) := by
      simp [logRowOf, logKey]
    simp only [save_daily_log, List.filter_append]
    rw [show List.filter (fun r => decide (logKey r ≠ (u, e2.LogDate)))
        [logRowOf u e1] = [] from by simp [List.filter, hrow1]]
    rw [show List.filter (fun r => decide (logKey r = (u, e2.LogDate)))
        [logRowOf u e2] = [logRowOf u e2] from by simp [List.filter, hrow2]]
    rw [List.filter_filter]
    have hmerge : List.filter
        (fun a => decide (logKey a = (u, e2.LogDate)) && decide (logKey a ≠ (u, e2.LogDate)))
        (List.filter (fun r => decide (logKey r ≠ (u, e1.LogDate))) db) = [] := by
      rw [List.filter_eq_nil_iff]
      intro a ha
      by_cases hk : logKey a = (u, e2.LogDate) <;> simp [hk]
    rw [hmerge]
    simp

/-- The first entry of the witness scenario for the upsert contract. -/
def entryA : LogEntry := ⟨"2024-01-01", 3, true, false, true, false, "first"⟩

/-- The second entry of the witness scenario, same date as `entryA`. -/
def entryB : LogEntry := ⟨"2024-01-01", 5, false, true, false, true, "second"⟩

/-- Witness for C6: saving `entryA` then `entryB` for the same (user, date)
keeps the store key-unique, and filtering by that key returns exactly the
row of the second write. -/
theorem c6_upsert_witness :
    uniqueByKey ([(entryA, 1), (entryB, 1)].foldl
      (fun d p => save_daily_log d p.1 p.2) []) ∧
    (save_daily_log (save_daily_log [] entryA 1) entryB 1).filter
      (fun r => decide (logKey r = (1, entryB.LogDate))) = [logRowOf 1 entryB] :=
  ⟨c6_upsert.1 [(entryA, 1), (entryB, 1)] [] List.Pairwise.nil,
   c6_upsert.2 [] entryA entryB 1 rfl⟩
